import Mathlib

/-
  Verification of the collaboration-platform backend (TypeScript sources)
  against its natural-language specification.

  The relevant services are shallowly embedded: each database table of
  scripts/init-db.sql becomes a list of row structures inside a DBState,
  each service method becomes a Lean function on DBState that mirrors the
  SQL statements and control flow of the TypeScript source, and JavaScript
  specifics (Record lookups returning undefined, the >= comparison on
  possibly-undefined values, instanceof against the jsonwebtoken error
  class hierarchy) are modelled explicitly.
-/

namespace CollabPlatform

/-! ## Data model: rows of the tables created in scripts/init-db.sql -/

/-- A row of the users table. -/
structure UserRow where
  id : Nat
  email : String
  passwordHash : String
  globalStatus : String
deriving Repr, DecidableEq

/-- A row of the user_devices table (one session per login).
The schema puts no UNIQUE constraint on refresh_token_hash. -/
structure DeviceRow where
  id : Nat
  userId : Nat
  refreshTokenHash : String
  isRevoked : Bool
deriving Repr, DecidableEq

/-- A row of the workspaces table. -/
structure WorkspaceRow where
  id : Nat
  name : String
  description : Option String
  createdBy : Nat
deriving Repr, DecidableEq

/-- A row of the workspace_members table (UNIQUE(workspace_id, user_id)). -/
structure WorkspaceMemberRow where
  workspaceId : Nat
  userId : Nat
  role : String
deriving Repr, DecidableEq

/-- A row of the projects table. -/
structure ProjectRow where
  id : Nat
  workspaceId : Nat
  createdBy : Nat
deriving Repr, DecidableEq

/-- A row of the project_members table (UNIQUE(project_id, user_id)). -/
structure ProjectMemberRow where
  projectId : Nat
  userId : Nat
  role : String
deriving Repr, DecidableEq

/-- A row of the tasks table. -/
structure TaskRow where
  id : Nat
  projectId : Nat
  title : String
  status : String
  createdBy : Nat
deriving Repr, DecidableEq

/-- A row of the task_assignments table. -/
structure TaskAssignmentRow where
  taskId : Nat
  userId : Nat
deriving Repr, DecidableEq

/-- A row of the notifications table, as inserted by NotificationService. -/
structure NotificationRow where
  title : String
  body : String
  recipientId : Nat
  relatedEntityId : Nat
  entityType : String
deriving Repr, DecidableEq

/-- The visible database state. nextId models the id generator: every id
handed out by an INSERT is fresh (larger than all ids already present). -/
structure DBState where
  users : List UserRow
  userDevices : List DeviceRow
  workspaces : List WorkspaceRow
  workspaceMembers : List WorkspaceMemberRow
  projects : List ProjectRow
  projectMembers : List ProjectMemberRow
  tasks : List TaskRow
  taskAssignments : List TaskAssignmentRow
  notifications : List NotificationRow
  nextId : Nat
deriving Repr, DecidableEq

/-- The error taxonomy of the services: ForbiddenError, UserInputError and
generic internal Error values thrown by the TypeScript code. -/
inductive ServiceError where
  | forbidden (msg : String)
  | userInput (msg : String)
  | internal (msg : String)
deriving Repr, DecidableEq

/-! ## JavaScript semantics helpers -/

/-- The JavaScript comparison a >= b where either side may be undefined
(modelled as none): any comparison against undefined is false. -/
def jsGe : Option Nat → Option Nat → Bool
  | some a, some b => decide (b ≤ a)
  | _, _ => false

/-! ## WorkspaceService (src/services/workspaceService.ts) -/

/-- The query SELECT role FROM workspace_members WHERE workspace_id AND
user_id, shared by getWorkspaceMemberRole and hasWorkspaceAccess. -/
def queryWorkspaceMemberRole (s : DBState) (workspaceId userId : Nat) : Option String :=
  (s.workspaceMembers.find? (fun r => r.workspaceId == workspaceId && r.userId == userId)).map
    (fun r => r.role)

/-- The inline roleHierarchy object of WorkspaceService.hasWorkspaceAccess;
a Record lookup at any other key yields undefined (none). -/
def workspaceRoleHierarchy : String → Option Nat
  | "VIEWER" => some 1
  | "MEMBER" => some 2
  | "OWNER" => some 3
  | _ => none

/-- WorkspaceService.hasWorkspaceAccess: membership row required (never
auto-provisioned); rank comparison on the workspace role order. -/
def hasWorkspaceAccess (s : DBState) (workspaceId userId : Nat) (minimumRole : String) : Bool :=
  match queryWorkspaceMemberRole s workspaceId userId with
  | none => false
  | some userRole => jsGe (workspaceRoleHierarchy userRole) (workspaceRoleHierarchy minimumRole)

/-- DatabaseClient.transaction (src/database/client.ts): BEGIN, run the
callback, COMMIT on success; on any error ROLLBACK restores the state that
was current when the transaction began, and the error is rethrown. -/
def dbTransaction {A : Type} (s : DBState) (callback : DBState → Except String (DBState × A)) :
    DBState × Except String A :=
  match callback s with
  | .ok (s1, a) => (s1, .ok a)
  | .error e => (s, .error e)

/-- INSERT INTO workspaces ... RETURNING *, with a fault flag modelling an
infrastructure failure of this statement. -/
def insertWorkspace (s : DBState) (name : String) (description : Option String)
    (userId : Nat) (fail : Bool) : Except String (DBState × WorkspaceRow) :=
  if fail then .error "workspace insert failed"
  else
    let ws : WorkspaceRow :=
      { id := s.nextId, name := name, description := description, createdBy := userId }
    .ok ({ s with workspaces := s.workspaces ++ [ws], nextId := s.nextId + 1 }, ws)

/-- INSERT INTO workspace_members (workspace_id, user_id, role), with a
fault flag modelling an infrastructure failure of this statement. -/
def insertWorkspaceMember (s : DBState) (workspaceId userId : Nat) (role : String)
    (fail : Bool) : Except String DBState :=
  if fail then .error "workspace member insert failed"
  else
    .ok { s with workspaceMembers :=
            s.workspaceMembers ++ [{ workspaceId := workspaceId, userId := userId, role := role }] }

/-- WorkspaceService.createWorkspace: validate the name, then inside one
db.transaction insert the workspace row and the creator's OWNER membership
row. The catch block converts any infrastructure error into a generic
failure (a unique-constraint message becomes a UserInputError instead; in
both cases the transaction has already rolled back). failW and failM inject
a failure into the first and second insert respectively. -/
def createWorkspace (s : DBState) (name : String) (description : Option String)
    (userId : Nat) (failW failM : Bool) : DBState × Except ServiceError WorkspaceRow :=
  if (name.trim).length == 0 then
    (s, .error (.userInput "Workspace name is required"))
  else
    let run := dbTransaction s (fun st => do
      let (st1, ws) ← insertWorkspace st name.trim description userId failW
      let st2 ← insertWorkspaceMember st1 ws.id userId "OWNER" failM
      pure (st2, ws))
    match run with
    | (s1, .ok ws) => (s1, .ok ws)
    | (s1, .error _) => (s1, .error (.internal "Failed to create workspace"))

/-- WorkspaceService.removeWorkspaceMember: requester must hold OWNER; a
requester targeting themselves is rejected outright with a UserInputError
before the DELETE statement runs. -/
def removeWorkspaceMember (s : DBState) (workspaceId userId requesterId : Nat) :
    DBState × Except ServiceError Bool :=
  let requesterRole := queryWorkspaceMemberRole s workspaceId requesterId
  if requesterRole != some "OWNER" then
    (s, .error (.forbidden "Only workspace owners can remove members"))
  else if userId == requesterId then
    (s, .error (.userInput "Cannot remove yourself as workspace owner"))
  else
    let remaining := s.workspaceMembers.filter
      (fun m => !(m.workspaceId == workspaceId && m.userId == userId))
    if remaining.length == s.workspaceMembers.length then
      (s, .error (.userInput "Member not found in workspace"))
    else
      ({ s with workspaceMembers := remaining }, .ok true)

/-! ## ProjectService (src/services/projectService.ts) -/

/-- The query SELECT role FROM project_members WHERE project_id AND
user_id, shared by getProjectMemberRole and hasProjectAccess. -/
def queryProjectMemberRole (s : DBState) (projectId userId : Nat) : Option String :=
  (s.projectMembers.find? (fun r => r.projectId == projectId && r.userId == userId)).map
    (fun r => r.role)

/-- ProjectService.getProjectById: SELECT * FROM projects WHERE id. -/
def getProjectById (s : DBState) (projectId : Nat) : Option ProjectRow :=
  s.projects.find? (fun p => p.id == projectId)

/-- The inline roleHierarchy object of ProjectService.hasProjectAccess as
written in the source: it holds the WORKSPACE role names, so looking up a
project role (PROJECT_LEAD or CONTRIBUTOR) yields undefined (none). -/
def hasProjectAccessRoleHierarchy : String → Option Nat
  | "VIEWER" => some 1
  | "MEMBER" => some 2
  | "OWNER" => some 3
  | _ => none

/-- ProjectService.hasProjectAccess: with an explicit project_members row,
compare ranks through the inline map above under JavaScript >= semantics;
with no row, fall back to workspace access at VIEWER level. The function
only issues SELECT statements and never writes. -/
def hasProjectAccess (s : DBState) (projectId userId : Nat) (minimumRole : String) : Bool :=
  match queryProjectMemberRole s projectId userId with
  | none =>
    match getProjectById s projectId with
    | none => false
    | some project => hasWorkspaceAccess s project.workspaceId userId "VIEWER"
  | some userRole =>
    jsGe (hasProjectAccessRoleHierarchy userRole) (hasProjectAccessRoleHierarchy minimumRole)

/-- INSERT INTO project_members ... ON CONFLICT (project_id, user_id) DO
NOTHING. -/
def insertProjectMemberIfAbsent (s : DBState) (projectId userId : Nat) (role : String) : DBState :=
  if (s.projectMembers.find? (fun r => r.projectId == projectId && r.userId == userId)).isSome then
    s
  else
    { s with projectMembers :=
        s.projectMembers ++ [{ projectId := projectId, userId := userId, role := role }] }

/-- ProjectService.getProject (the read path): the join returns the project
row together with the requester's workspace role (null when the requester
has no workspace membership; the join against workspaces also requires the
parent workspace row to exist). When the workspace role is present and no
explicit project membership exists, a VIEWER project membership row is
materialized. Returns the resulting state and the fetched project. -/
def getProject (s : DBState) (projectId userId : Nat) : DBState × Option ProjectRow :=
  match getProjectById s projectId with
  | none => (s, none)
  | some project =>
    if (s.workspaces.find? (fun w => w.id == project.workspaceId)).isNone then
      (s, none)
    else
      let workspaceRole := queryWorkspaceMemberRole s project.workspaceId userId
      let s1 :=
        if workspaceRole.isSome && (queryProjectMemberRole s projectId userId).isNone then
          insertProjectMemberIfAbsent s projectId userId "VIEWER"
        else s
      (s1, getProjectById s1 projectId)

/-- ProjectService.countProjectLeads: COUNT(*) of PROJECT_LEAD rows of the
project, optionally excluding one user id. -/
def countProjectLeads (s : DBState) (projectId : Nat) (excludeUserId : Option Nat) : Nat :=
  (s.projectMembers.filter (fun r =>
    r.projectId == projectId && r.role == "PROJECT_LEAD" &&
      match excludeUserId with
      | some e => r.userId != e
      | none => true)).length

/-- ProjectService.updateProjectMemberRole: requester must be PROJECT_LEAD
of the project or OWNER of its workspace; a requester who targets
themselves while being the only PROJECT_LEAD is rejected with a
UserInputError before the UPDATE statement runs. -/
def updateProjectMemberRole (s : DBState) (projectId userId : Nat) (role : String)
    (requesterId : Nat) : DBState × Except ServiceError String :=
  let requesterProjectRole := queryProjectMemberRole s projectId requesterId
  match getProjectById s projectId with
  | none => (s, .error (.userInput "Project not found"))
  | some project =>
    let isWorkspaceOwner := hasWorkspaceAccess s project.workspaceId requesterId "OWNER"
    let isProjectLead := requesterProjectRole == some "PROJECT_LEAD"
    if !isProjectLead && !isWorkspaceOwner then
      (s, .error (.forbidden "Only project leads or workspace owners can update project roles"))
    else if userId == requesterId && isProjectLead &&
        countProjectLeads s projectId (some requesterId) == 0 then
      (s, .error (.userInput "Cannot change your own role as the only project lead"))
    else if (s.projectMembers.find?
        (fun r => r.projectId == projectId && r.userId == userId)).isNone then
      (s, .error (.userInput "Member not found in project"))
    else
      let updated := s.projectMembers.map (fun r =>
        if r.projectId == projectId && r.userId == userId then { r with role := role } else r)
      ({ s with projectMembers := updated }, .ok role)

/-! ## NotificationService and TaskService (src/services/taskService.ts) -/

/-- The row inserted by NotificationService.createTaskAssignmentNotification. -/
def taskAssignmentNotification (userId taskId : Nat) (taskTitle : String) : NotificationRow :=
  { title := "New Task Assignment",
    body := "You have been assigned to task: \"" ++ taskTitle ++ "\"",
    recipientId := userId,
    relatedEntityId := taskId,
    entityType := "TASK" }

/-- TaskService.getTaskById: SELECT * FROM tasks WHERE id. -/
def getTaskById (s : DBState) (taskId : Nat) : Option TaskRow :=
  s.tasks.find? (fun t => t.id == taskId)

/-- TaskService.isTaskAssignedToUser. -/
def isTaskAssignedToUser (s : DBState) (taskId userId : Nat) : Bool :=
  s.taskAssignments.any (fun a => a.taskId == taskId && a.userId == userId)

/-- TaskService.hasAnyAssignments. -/
def hasAnyAssignments (s : DBState) (taskId : Nat) : Bool :=
  s.taskAssignments.any (fun a => a.taskId == taskId)

/-- TaskService.wasUserPreviouslyAssigned: the same SELECT as
isTaskAssignedToUser, issued through db.query, i.e. on the pool connection
and NOT on the transaction client — so it observes the committed state from
before the enclosing transaction began. -/
def wasUserPreviouslyAssigned (s : DBState) (taskId userId : Nat) : Bool :=
  s.taskAssignments.any (fun a => a.taskId == taskId && a.userId == userId)

/-- TaskService.canUpdateTask: PROJECT_LEAD may update any task; a
CONTRIBUTOR only tasks assigned to them or unassigned tasks; otherwise no. -/
def canUpdateTask (s : DBState) (taskId userId : Nat) : Bool :=
  match getTaskById s taskId with
  | none => false
  | some task =>
    match queryProjectMemberRole s task.projectId userId with
    | some "PROJECT_LEAD" => true
    | some "CONTRIBUTOR" => isTaskAssignedToUser s taskId userId || !hasAnyAssignments s taskId
    | _ => false

/-- The input record of TaskService.updateTask; a missing field of the
GraphQL input (undefined) is none. -/
structure UpdateTaskInput where
  taskId : Nat
  title : Option String
  description : Option String
  status : Option String
  dueDate : Option String
  assignedToIds : Option (List Nat)
deriving Repr, DecidableEq

/-- The dynamic UPDATE tasks SET ... built by updateTask, applied to one
row (description and due date are not tracked in the row model). -/
def applyTaskFieldUpdates (t : TaskRow) (input : UpdateTaskInput) : TaskRow :=
  let t1 := match input.title with
    | some v => { t with title := v }
    | none => t
  match input.status with
  | some v => { t1 with status := v }
  | none => t1

/-- TaskService.updateTask: fetch the task, check permission, require at
least one scalar field, then inside one db.transaction update the task row,
delete all of its assignment rows and re-insert the requested ones, and for
each inserted assignee who was not previously assigned create a
task-assignment notification. wasUserPreviouslyAssigned runs on the pool
connection, so its reads see the pre-transaction state s, not the deletes
just issued on the transaction client. -/
def updateTask (s : DBState) (input : UpdateTaskInput) (userId : Nat) :
    DBState × Except ServiceError TaskRow :=
  match getTaskById s input.taskId with
  | none => (s, .error (.userInput "Task not found"))
  | some currentTask =>
    if !canUpdateTask s input.taskId userId then
      (s, .error (.forbidden "Insufficient permissions to update this task"))
    else if input.title.isNone && input.description.isNone && input.status.isNone &&
        input.dueDate.isNone then
      (s, .error (.userInput "No fields to update"))
    else
      let task := applyTaskFieldUpdates currentTask input
      let s1 := { s with tasks := s.tasks.map (fun t =>
        if t.id == input.taskId then applyTaskFieldUpdates t input else t) }
      match input.assignedToIds with
      | none => (s1, .ok task)
      | some ids =>
        let s2 := { s1 with taskAssignments :=
          s1.taskAssignments.filter (fun a => !(a.taskId == input.taskId)) }
        let s3 := ids.foldl (fun st assignedUserId =>
          let st1 := { st with taskAssignments :=
            st.taskAssignments ++ [{ taskId := input.taskId, userId := assignedUserId }] }
          if !wasUserPreviouslyAssigned s input.taskId assignedUserId then
            { st1 with notifications := st1.notifications ++
                [taskAssignmentNotification assignedUserId input.taskId task.title] }
          else st1) s2
        (s3, .ok task)

/-! ## AuthService (src/services/authService.ts) -/

/-- AuthService.createUserDevice: INSERT INTO user_devices, is_revoked
defaulting to false; returns the fresh id. -/
def createUserDevice (s : DBState) (userId : Nat) (refreshTokenHash : String) : DBState × Nat :=
  let d : DeviceRow :=
    { id := s.nextId, userId := userId, refreshTokenHash := refreshTokenHash, isRevoked := false }
  ({ s with userDevices := s.userDevices ++ [d], nextId := s.nextId + 1 }, d.id)

/-- AuthService.revokeUserDevice: UPDATE user_devices SET is_revoked = true
WHERE refresh_token_hash; returns whether any row matched. -/
def revokeUserDevice (s : DBState) (refreshTokenHash : String) : DBState × Bool :=
  ({ s with userDevices := s.userDevices.map (fun d =>
      if d.refreshTokenHash == refreshTokenHash then { d with isRevoked := true } else d) },
   s.userDevices.any (fun d => d.refreshTokenHash == refreshTokenHash))

/-- The WHERE clause of AuthService.revokeAllUserDevices: user_id matches,
optionally AND refresh_token_hash != the excluded hash. -/
def revokeAllHit (userId : Nat) (excludeRefreshTokenHash : Option String)
    (d : DeviceRow) : Bool :=
  d.userId == userId &&
    match excludeRefreshTokenHash with
    | some e => d.refreshTokenHash != e
    | none => true

/-- AuthService.revokeAllUserDevices: UPDATE user_devices SET is_revoked =
true on every row matched by the WHERE clause; returns the number of
matched rows. -/
def revokeAllUserDevices (s : DBState) (userId : Nat)
    (excludeRefreshTokenHash : Option String) : DBState × Nat :=
  ({ s with userDevices := s.userDevices.map (fun d =>
      if revokeAllHit userId excludeRefreshTokenHash d then { d with isRevoked := true }
      else d) },
   (s.userDevices.filter (revokeAllHit userId excludeRefreshTokenHash)).length)

/-- AuthService.updateDeviceRefreshToken: UPDATE user_devices SET
refresh_token_hash = new WHERE id (the rotation step). -/
def updateDeviceRefreshToken (s : DBState) (deviceId : Nat) (newRefreshTokenHash : String) :
    DBState :=
  { s with userDevices := s.userDevices.map (fun d =>
      if d.id == deviceId then { d with refreshTokenHash := newRefreshTokenHash } else d) }

/-- AuthService.validateRefreshToken: the first user_devices row with the
given hash and is_revoked = false, joined against users; none when no such
row exists or the owning user is BANNED. -/
def validateRefreshToken (s : DBState) (refreshTokenHash : String) :
    Option (DeviceRow × UserRow) :=
  match s.userDevices.find? (fun d => d.refreshTokenHash == refreshTokenHash && !d.isRevoked) with
  | none => none
  | some device =>
    match s.users.find? (fun u => u.id == device.userId) with
    | none => none
    | some user => if user.globalStatus == "BANNED" then none else some (device, user)

/-- The bcrypt hash of authUtils.hashPassword, an external library call;
modelled as a function of the generated salt and the password. -/
def hashPassword (salt password : String) : String :=
  salt ++ "$" ++ password

/-- AuthService.changePassword: hash the new password, UPDATE the user row,
then revoke all of the user's devices with no exclusion hash. -/
def changePassword (s : DBState) (userId : Nat) (newPassword salt : String) : DBState :=
  let newPasswordHash := hashPassword salt newPassword
  let s1 := { s with users := s.users.map (fun u =>
    if u.id == userId then { u with passwordHash := newPasswordHash } else u) }
  (revokeAllUserDevices s1 userId none).1

/-! ## The session-store operations as a transition system

For the temporal claims about revocation and rotation, arbitrary sequences
of the store's operations are modelled as lists of StoreOp values applied
in order. -/

/-- One operation of the session/device store. -/
inductive StoreOp where
  | create (userId : Nat) (refreshTokenHash : String)
  | validate (refreshTokenHash : String)
  | rotate (deviceId : Nat) (newRefreshTokenHash : String)
  | revoke (refreshTokenHash : String)
  | revokeAll (userId : Nat) (excludeRefreshTokenHash : Option String)
deriving Repr, DecidableEq

/-- The state transition of one store operation (validate is read-only). -/
def applyOp (s : DBState) (op : StoreOp) : DBState :=
  match op with
  | .create userId hash => (createUserDevice s userId hash).1
  | .validate _ => s
  | .rotate deviceId newHash => updateDeviceRefreshToken s deviceId newHash
  | .revoke hash => (revokeUserDevice s hash).1
  | .revokeAll userId exclude => (revokeAllUserDevices s userId exclude).1

/-- Applying a sequence of store operations in order. -/
def applyOps (s : DBState) (ops : List StoreOp) : DBState :=
  ops.foldl applyOp s

/-- An operation avoids a hash when it does not store that hash into any
row: creates and rotations must use a different hash; all other operations
never store a hash. -/
def opAvoidsHash (op : StoreOp) (hash : String) : Prop :=
  match op with
  | .create _ h => h ≠ hash
  | .rotate _ h => h ≠ hash
  | _ => True

instance (op : StoreOp) (hash : String) : Decidable (opAvoidsHash op hash) := by
  unfold opAvoidsHash
  match op with
  | .create u h => exact inferInstanceAs (Decidable (h ≠ hash))
  | .validate h => exact inferInstanceAs (Decidable True)
  | .rotate d h => exact inferInstanceAs (Decidable (h ≠ hash))
  | .revoke h => exact inferInstanceAs (Decidable True)
  | .revokeAll u e => exact inferInstanceAs (Decidable True)

/-- No device row stores the hash un-revoked. -/
def noActiveHash (s : DBState) (hash : String) : Bool :=
  s.userDevices.all (fun d => d.refreshTokenHash != hash || d.isRevoked)

/-! ## authUtils token verification (src/utils/authUtils.ts) -/

/-- The claims object of the access token. -/
structure TokenPayload where
  userId : String
  email : String
  globalStatus : String
deriving Repr, DecidableEq

/-- The two failure kinds jwt.verify can raise for a bad token: expiry
(TokenExpiredError) and signature mismatch or malformation
(JsonWebTokenError proper). -/
inductive JwtVerifyError where
  | tokenExpired
  | jsonWebToken
deriving Repr, DecidableEq

/-- The instanceof jwt.JsonWebTokenError test. In the jsonwebtoken library
TokenExpiredError is a subclass of JsonWebTokenError, so the test is true
for both failure kinds. -/
def instanceOfJsonWebTokenError : JwtVerifyError → Bool
  | _ => true

/-- The instanceof jwt.TokenExpiredError test. -/
def instanceOfTokenExpiredError : JwtVerifyError → Bool
  | .tokenExpired => true
  | .jsonWebToken => false

/-- authUtils.verifyAccessToken, as a function of the outcome of the
underlying jwt.verify call: on success return the payload; on failure run
the catch block, whose first instanceof branch tests JsonWebTokenError and
whose second tests TokenExpiredError, rethrowing anything else. -/
def verifyAccessToken (result : Except JwtVerifyError TokenPayload) : Except String TokenPayload :=
  match result with
  | .ok payload => .ok payload
  | .error e =>
    if instanceOfJsonWebTokenError e then .error "Invalid access token"
    else if instanceOfTokenExpiredError e then .error "Access token expired"
    else .error "rethrown"

/-- authUtils.verifyRefreshToken: the same catch structure with the refresh
secret and refresh-specific messages. -/
def verifyRefreshToken (result : Except JwtVerifyError TokenPayload) : Except String TokenPayload :=
  match result with
  | .ok payload => .ok payload
  | .error e =>
    if instanceOfJsonWebTokenError e then .error "Invalid refresh token"
    else if instanceOfTokenExpiredError e then .error "Refresh token expired"
    else .error "rethrown"

/-! ## Well-formedness and invariant predicates -/

/-- Every workspace_members row references a workspace id below the id
generator, so a freshly generated id clashes with no existing row. -/
def memberIdsBelowNext (s : DBState) : Bool :=
  s.workspaceMembers.all (fun m => m.workspaceId < s.nextId)

/-- Every workspace row has at least one OWNER membership row. -/
def everyWorkspaceHasOwner (s : DBState) : Bool :=
  s.workspaces.all (fun w =>
    s.workspaceMembers.any (fun m => m.workspaceId == w.id && m.role == "OWNER"))

/-! ## Concrete states used by counterexamples and witnesses -/

/-- A project with one PROJECT_LEAD (user 2), one CONTRIBUTOR (user 3) and
one VIEWER (user 4) as explicit project_members rows. -/
def leadContribState : DBState :=
  { users := [], userDevices := [],
    workspaces := [{ id := 1, name := "W", description := none, createdBy := 2 }],
    workspaceMembers := [],
    projects := [{ id := 1, workspaceId := 1, createdBy := 2 }],
    projectMembers :=
      [{ projectId := 1, userId := 2, role := "PROJECT_LEAD" },
       { projectId := 1, userId := 3, role := "CONTRIBUTOR" },
       { projectId := 1, userId := 4, role := "VIEWER" }],
    tasks := [], taskAssignments := [], notifications := [], nextId := 10 }

/-- A workspace whose user 2 is a MEMBER with no project_members row for
project 1 of that workspace. -/
def memberNoRowState : DBState :=
  { users := [], userDevices := [],
    workspaces := [{ id := 1, name := "W", description := none, createdBy := 9 }],
    workspaceMembers := [{ workspaceId := 1, userId := 2, role := "MEMBER" }],
    projects := [{ id := 1, workspaceId := 1, createdBy := 9 }],
    projectMembers := [], tasks := [], taskAssignments := [], notifications := [],
    nextId := 10 }

/-- One active user owning one active session with hash h1. -/
def oneDeviceState : DBState :=
  { users := [{ id := 1, email := "a@b.c", passwordHash := "p", globalStatus := "ACTIVE" }],
    userDevices := [{ id := 1, userId := 1, refreshTokenHash := "h1", isRevoked := false }],
    workspaces := [], workspaceMembers := [], projects := [], projectMembers := [],
    tasks := [], taskAssignments := [], notifications := [], nextId := 2 }

/-- One active user owning two active sessions that store the same
refresh-token hash h1, which the schema permits (no UNIQUE constraint on
refresh_token_hash; the same user logging in twice within one second even
receives the identical refresh token and therefore the identical hash). -/
def sharedHashState : DBState :=
  { users := [{ id := 1, email := "a@b.c", passwordHash := "p", globalStatus := "ACTIVE" }],
    userDevices :=
      [{ id := 1, userId := 1, refreshTokenHash := "h1", isRevoked := false },
       { id := 2, userId := 1, refreshTokenHash := "h1", isRevoked := false }],
    workspaces := [], workspaceMembers := [], projects := [], projectMembers := [],
    tasks := [], taskAssignments := [], notifications := [], nextId := 3 }

/-- The empty database with the id generator at 1. -/
def emptyState : DBState :=
  { users := [], userDevices := [], workspaces := [], workspaceMembers := [],
    projects := [], projectMembers := [], tasks := [], taskAssignments := [],
    notifications := [], nextId := 1 }

/-- A workspace with two OWNER rows (users 1 and 2). -/
def twoOwnerState : DBState :=
  { users := [], userDevices := [],
    workspaces := [{ id := 1, name := "W", description := none, createdBy := 1 }],
    workspaceMembers :=
      [{ workspaceId := 1, userId := 1, role := "OWNER" },
       { workspaceId := 1, userId := 2, role := "OWNER" }],
    projects := [], projectMembers := [], tasks := [], taskAssignments := [],
    notifications := [], nextId := 10 }

/-- One user with two sessions, used for the password-change witness. -/
def twoDeviceState : DBState :=
  { users := [{ id := 1, email := "a@b.c", passwordHash := "old", globalStatus := "ACTIVE" }],
    userDevices :=
      [{ id := 1, userId := 1, refreshTokenHash := "h1", isRevoked := false },
       { id := 2, userId := 1, refreshTokenHash := "h2", isRevoked := false }],
    workspaces := [], workspaceMembers := [], projects := [], projectMembers := [],
    tasks := [], taskAssignments := [], notifications := [], nextId := 3 }

/-- A project whose sole PROJECT_LEAD is user 5, with a CONTRIBUTOR 6. -/
def soleLeadState : DBState :=
  { users := [], userDevices := [],
    workspaces := [{ id := 1, name := "W", description := none, createdBy := 5 }],
    workspaceMembers := [],
    projects := [{ id := 1, workspaceId := 1, createdBy := 5 }],
    projectMembers :=
      [{ projectId := 1, userId := 5, role := "PROJECT_LEAD" },
       { projectId := 1, userId := 6, role := "CONTRIBUTOR" }],
    tasks := [], taskAssignments := [], notifications := [], nextId := 10 }

/-- Task 10 of project 1 assigned to users 2 and 3, with user 5 the
project lead who performs the update. -/
def taskDiffState : DBState :=
  { users := [], userDevices := [],
    workspaces := [{ id := 1, name := "W", description := none, createdBy := 5 }],
    workspaceMembers := [],
    projects := [{ id := 1, workspaceId := 1, createdBy := 5 }],
    projectMembers := [{ projectId := 1, userId := 5, role := "PROJECT_LEAD" }],
    tasks := [{ id := 10, projectId := 1, title := "t", status := "TODO", createdBy := 5 }],
    taskAssignments := [{ taskId := 10, userId := 2 }, { taskId := 10, userId := 3 }],
    notifications := [], nextId := 20 }

/-! ## Helper lemmas -/

theorem any_of_filter {α : Type} (p q : α → Bool) (l : List α) :
    (l.filter p).any q = l.any (fun a => p a && q a) := by
  induction l with
  | nil => rfl
  | cons a l ih =>
    by_cases h : p a <;> simp [List.filter_cons, List.any_cons, h, ih]

theorem find?_append_of_none {α : Type} (p : α → Bool) (l₁ l₂ : List α)
    (h : l₁.find? p = none) : (l₁ ++ l₂).find? p = l₂.find? p := by
  induction l₁ with
  | nil => rfl
  | cons a l ih =>
    by_cases ha : p a = true
    · rw [List.find?_cons_of_pos _ ha] at h
      exact absurd h (Option.some_ne_none a)
    · rw [List.find?_cons_of_neg _ ha] at h
      rw [List.cons_append, List.find?_cons_of_neg _ ha]
      exact ih h

theorem filter_beq_nil_of_all_lt (n : Nat) (l : List WorkspaceMemberRow)
    (h : l.all (fun m => m.workspaceId < n) = true) :
    l.filter (fun m => m.workspaceId == n) = [] := by
  induction l with
  | nil => rfl
  | cons a l ih =>
    simp only [List.all_cons, Bool.and_eq_true, decide_eq_true_eq] at h
    have hne : (a.workspaceId == n) = false := by
      simp only [beq_eq_false_iff_ne]
      exact Nat.ne_of_lt h.1
    simp [List.filter_cons, hne, ih h.2]

theorem validate_none_of_noActiveHash (s : DBState) (hash : String)
    (h : noActiveHash s hash = true) : validateRefreshToken s hash = none := by
  unfold validateRefreshToken
  cases hfind : s.userDevices.find? (fun d => d.refreshTokenHash == hash && !d.isRevoked) with
  | none => rfl
  | some d =>
    have hp := List.find?_some hfind
    have hm := List.mem_of_find?_eq_some hfind
    unfold noActiveHash at h
    rw [List.all_eq_true] at h
    have hd := h d hm
    simp only [Bool.and_eq_true, beq_iff_eq, Bool.not_eq_true'] at hp
    simp only [bne, Bool.or_eq_true, Bool.not_eq_true'] at hd
    rcases hd with h1 | h2
    · rw [hp.1] at h1
      simp at h1
    · rw [hp.2] at h2
      exact absurd h2 (by simp)

theorem noActiveHash_pred (d : DeviceRow) (hash : String) :
    (d.refreshTokenHash != hash || d.isRevoked) = true ↔
      (d.refreshTokenHash = hash → d.isRevoked = true) := by
  cases hr : d.isRevoked with
  | true => simp
  | false =>
    by_cases hh : d.refreshTokenHash = hash
    · simp [hh, hr]
    · simp [bne, beq_eq_false_iff_ne.mpr hh, hh]

theorem noActiveHash_iff (s : DBState) (hash : String) :
    noActiveHash s hash = true ↔
      ∀ d ∈ s.userDevices, d.refreshTokenHash = hash → d.isRevoked = true := by
  unfold noActiveHash
  rw [List.all_eq_true]
  constructor
  · intro h d hd
    exact (noActiveHash_pred d hash).mp (h d hd)
  · intro h d hd
    exact (noActiveHash_pred d hash).mpr (h d hd)

theorem noActiveHash_revoke (s : DBState) (hash : String) :
    noActiveHash (revokeUserDevice s hash).1 hash = true := by
  rw [noActiveHash_iff]
  simp only [revokeUserDevice]
  intro d hd
  rw [List.mem_map] at hd
  obtain ⟨d0, _, rfl⟩ := hd
  by_cases hq : (d0.refreshTokenHash == hash) = true
  · rw [if_pos hq]
    intro _
    rfl
  · rw [if_neg hq]
    intro hh
    exact absurd (by simpa using hh) (by simpa using hq)

theorem noActiveHash_applyOp (s : DBState) (hash : String) (op : StoreOp)
    (hop : opAvoidsHash op hash) (h : noActiveHash s hash = true) :
    noActiveHash (applyOp s op) hash = true := by
  rw [noActiveHash_iff] at h ⊢
  cases op with
  | validate h0 => exact h
  | create u h0 =>
    unfold opAvoidsHash at hop
    simp only [applyOp, createUserDevice]
    intro d hd
    rw [List.mem_append] at hd
    cases hd with
    | inl hin => exact h d hin
    | inr hnew =>
      rw [List.mem_singleton] at hnew
      subst hnew
      intro hh
      exact absurd hh hop
  | rotate did h0 =>
    unfold opAvoidsHash at hop
    simp only [applyOp, updateDeviceRefreshToken]
    intro d hd
    rw [List.mem_map] at hd
    obtain ⟨d0, hd0, rfl⟩ := hd
    by_cases hid : (d0.id == did) = true
    · rw [if_pos hid]
      intro hh
      exact absurd hh hop
    · rw [if_neg hid]
      exact h d0 hd0
  | revoke h0 =>
    simp only [applyOp, revokeUserDevice]
    intro d hd
    rw [List.mem_map] at hd
    obtain ⟨d0, hd0, rfl⟩ := hd
    by_cases hq : (d0.refreshTokenHash == h0) = true
    · rw [if_pos hq]
      intro _
      rfl
    · rw [if_neg hq]
      exact h d0 hd0
  | revokeAll u e =>
    simp only [applyOp, revokeAllUserDevices]
    intro d hd
    rw [List.mem_map] at hd
    obtain ⟨d0, hd0, rfl⟩ := hd
    by_cases hq : revokeAllHit u e d0 = true
    · rw [if_pos hq]
      intro _
      rfl
    · rw [if_neg hq]
      exact h d0 hd0

theorem noActiveHash_applyOps (s : DBState) (hash : String) (ops : List StoreOp)
    (hops : ∀ op ∈ ops, opAvoidsHash op hash) (h : noActiveHash s hash = true) :
    noActiveHash (applyOps s ops) hash = true := by
  induction ops generalizing s with
  | nil => exact h
  | cons op rest ih =>
    simp only [applyOps, List.foldl_cons]
    exact ih (applyOp s op) (fun o ho => hops o (List.mem_cons_of_mem _ ho))
      (noActiveHash_applyOp s hash op (hops op (List.mem_cons_self _ _)) h)

theorem revoked_stays_revoked (s : DBState) (op : StoreOp) (d : DeviceRow)
    (hd : d ∈ s.userDevices) (hr : d.isRevoked = true) :
    ∃ d1 ∈ (applyOp s op).userDevices, d1.id = d.id ∧ d1.isRevoked = true := by
  cases op with
  | validate h0 => exact ⟨d, hd, rfl, hr⟩
  | create u h0 =>
    refine ⟨d, ?_, rfl, hr⟩
    simp only [applyOp, createUserDevice]
    exact List.mem_append_left _ hd
  | rotate did h0 =>
    simp only [applyOp, updateDeviceRefreshToken]
    refine ⟨_, List.mem_map_of_mem _ hd, ?_, ?_⟩
    · by_cases h : (d.id == did) = true <;> simp [h]
    · by_cases h : (d.id == did) = true <;> simp [h, hr]
  | revoke h0 =>
    simp only [applyOp, revokeUserDevice]
    refine ⟨_, List.mem_map_of_mem _ hd, ?_, ?_⟩
    · by_cases h : (d.refreshTokenHash == h0) = true <;> simp [h]
    · by_cases h : (d.refreshTokenHash == h0) = true <;> simp [h, hr]
  | revokeAll u e =>
    simp only [applyOp, revokeAllUserDevices]
    refine ⟨_, List.mem_map_of_mem _ hd, ?_, ?_⟩
    · by_cases h : revokeAllHit u e d = true <;> simp [h]
    · by_cases h : revokeAllHit u e d = true <;> simp [h, hr]

theorem noActiveHash_rotate (s : DBState) (deviceId : Nat) (oldHash newHash : String)
    (honly : ∀ d ∈ s.userDevices,
      d.refreshTokenHash = oldHash → d.isRevoked = false → d.id = deviceId)
    (hnew : newHash ≠ oldHash) :
    noActiveHash (updateDeviceRefreshToken s deviceId newHash) oldHash = true := by
  rw [noActiveHash_iff]
  simp only [updateDeviceRefreshToken]
  intro d hd
  rw [List.mem_map] at hd
  obtain ⟨d0, hd0, rfl⟩ := hd
  by_cases hid : (d0.id == deviceId) = true
  · rw [if_pos hid]
    intro hh
    exact absurd hh hnew
  · rw [if_neg hid]
    intro hh
    cases hr : d0.isRevoked with
    | true => rfl
    | false => exact absurd (beq_iff_eq.mpr (honly d0 hd0 hh hr)) hid

/-! ## Claim theorems -/

/-- C1: the claim states that for a user with an explicit ProjectMembership
row, hasProjectAccess succeeds iff the stored role ranks at least the
minimum under PROJECT_LEAD > CONTRIBUTOR > VIEWER, so a PROJECT_LEAD would
pass every minimum and a CONTRIBUTOR would pass CONTRIBUTOR and VIEWER.
The code is wrong: the inline rank map of hasProjectAccess holds the
WORKSPACE role names, so PROJECT_LEAD and CONTRIBUTOR look up undefined and
every comparison involving them is false. Evaluated on a project whose
explicit rows are a PROJECT_LEAD (user 2), a CONTRIBUTOR (user 3) and a
VIEWER (user 4): the lead and the contributor are denied even plain VIEWER
access, while only the VIEWER row at minimum VIEWER succeeds. -/
theorem hasProjectAccess_explicit_row_uses_workspace_map :
    hasProjectAccess leadContribState 1 2 "VIEWER" = false ∧
    hasProjectAccess leadContribState 1 2 "PROJECT_LEAD" = false ∧
    hasProjectAccess leadContribState 1 3 "VIEWER" = false ∧
    hasProjectAccess leadContribState 1 3 "CONTRIBUTOR" = false ∧
    hasProjectAccess leadContribState 1 4 "VIEWER" = true := by
  decide

/-- C6: the claim states that token validation reports an expired token and
a signature-invalid token as two distinguishable failure kinds. The code is
wrong: because TokenExpiredError is a subclass of JsonWebTokenError, the
first instanceof branch of the catch block captures expired tokens too, the
expiry branch is unreachable, and both causes produce the identical Invalid
failure, for the access and the refresh verifier alike. -/
theorem verifyToken_expired_collapses_to_invalid :
    verifyAccessToken (.error .tokenExpired) = .error "Invalid access token" ∧
    verifyAccessToken (.error .jsonWebToken) = .error "Invalid access token" ∧
    verifyRefreshToken (.error .tokenExpired) = .error "Invalid refresh token" ∧
    verifyRefreshToken (.error .jsonWebToken) = .error "Invalid refresh token" := by
  exact ⟨rfl, rfl, rfl, rfl⟩

/-- C9: a requester holding the OWNER role who targets themselves in
removeWorkspaceMember is rejected with a UserInputError before the DELETE
statement runs, so the state is returned unchanged — whatever other
memberships (including co-owners) exist. -/
theorem removeWorkspaceMember_owner_self_rejected
    (s : DBState) (workspaceId requesterId : Nat)
    (h : queryWorkspaceMemberRole s workspaceId requesterId = some "OWNER") :
    removeWorkspaceMember s workspaceId requesterId requesterId =
      (s, .error (.userInput "Cannot remove yourself as workspace owner")) := by
  simp [removeWorkspaceMember, h]

/-- C9 witness: in a workspace with two OWNER rows (users 1 and 2), owner 1
removing themselves still fails with the UserInputError and deletes no row. -/
theorem removeWorkspaceMember_owner_self_rejected_witness :
    queryWorkspaceMemberRole twoOwnerState 1 1 = some "OWNER" ∧
    removeWorkspaceMember twoOwnerState 1 1 1 =
      (twoOwnerState, .error (.userInput "Cannot remove yourself as workspace owner")) :=
  ⟨by decide, removeWorkspaceMember_owner_self_rejected twoOwnerState 1 1 (by decide)⟩

/-- C10: changePassword replaces the stored password hash of the user and
then revokes all of the user's sessions with no exclusion hash, so
afterwards every user_devices row of that user — including the session that
authenticated the request — has isRevoked = true. -/
theorem changePassword_revokes_every_session
    (s : DBState) (userId : Nat) (newPassword salt : String) :
    ((changePassword s userId newPassword salt).userDevices.all
      (fun d => d.userId != userId || d.isRevoked)) = true ∧
    ((changePassword s userId newPassword salt).users.all
      (fun u => u.id != userId || u.passwordHash == hashPassword salt newPassword)) = true := by
  constructor
  · simp only [changePassword, revokeAllUserDevices, List.all_map, List.all_eq_true,
      Function.comp]
    intro d _
    by_cases hu : d.userId = userId
    · simp [revokeAllHit, hu]
    · simp [revokeAllHit, hu]
  · simp only [changePassword, revokeAllUserDevices, List.all_map, List.all_eq_true,
      Function.comp]
    intro u _
    by_cases hu : u.id = userId
    · simp [revokeAllHit, hu]
    · simp [revokeAllHit, hu]

/-- C2: createWorkspace runs both inserts inside one db.transaction; under
any fault outcome of the two inserts, (a) a successful return leaves
exactly one workspace_members row for the fresh workspace id, namely the
creator's OWNER membership, (b) any error leaves the state exactly as it
was (full rollback, so no partial write is observable), and (c) the
invariant that every workspace has at least one OWNER membership is
preserved. -/
theorem createWorkspace_atomic_owner_membership
    (s : DBState) (name : String) (description : Option String) (userId : Nat)
    (failW failM : Bool)
    (hfresh : memberIdsBelowNext s = true)
    (hinv : everyWorkspaceHasOwner s = true) :
    (∀ ws, (createWorkspace s name description userId failW failM).2 = .ok ws →
      ((createWorkspace s name description userId failW failM).1.workspaceMembers.filter
        (fun m => m.workspaceId == ws.id)) =
        [{ workspaceId := ws.id, userId := userId, role := "OWNER" }]) ∧
    (∀ e, (createWorkspace s name description userId failW failM).2 = .error e →
      (createWorkspace s name description userId failW failM).1 = s) ∧
    everyWorkspaceHasOwner (createWorkspace s name description userId failW failM).1 = true := by
  unfold memberIdsBelowNext at hfresh
  by_cases hname : ((name.trim).length == 0) = true
  · have hred : createWorkspace s name description userId failW failM =
        (s, .error (.userInput "Workspace name is required")) := by
      unfold createWorkspace
      rw [if_pos hname]
    rw [hred]
    refine ⟨fun ws h => ?_, fun e _ => rfl, hinv⟩
    cases h
  · cases failW with
    | true =>
      have hred : createWorkspace s name description userId true failM =
          (s, .error (.internal "Failed to create workspace")) := by
        unfold createWorkspace
        rw [if_neg hname]
        cases failM <;> rfl
      rw [hred]
      refine ⟨fun ws h => ?_, fun e _ => rfl, hinv⟩
      cases h
    | false =>
      cases failM with
      | true =>
        have hred : createWorkspace s name description userId false true =
            (s, .error (.internal "Failed to create workspace")) := by
          unfold createWorkspace
          rw [if_neg hname]
          rfl
        rw [hred]
        refine ⟨fun ws h => ?_, fun e _ => rfl, hinv⟩
        cases h
      | false =>
        have hred : createWorkspace s name description userId false false =
            ({ s with
                workspaces := s.workspaces ++ [⟨s.nextId, name.trim, description, userId⟩],
                workspaceMembers := s.workspaceMembers ++ [⟨s.nextId, userId, "OWNER"⟩],
                nextId := s.nextId + 1 },
             .ok ⟨s.nextId, name.trim, description, userId⟩) := by
          unfold createWorkspace
          rw [if_neg hname]
          rfl
        rw [hred]
        refine ⟨?_, ?_, ?_⟩
        · intro ws h
          have hws : (⟨s.nextId, name.trim, description, userId⟩ : WorkspaceRow) = ws := by
            exact Except.ok.inj h
          rw [← hws]
          rw [List.filter_append, filter_beq_nil_of_all_lt s.nextId s.workspaceMembers hfresh]
          simp [List.filter]
        · intro e h
          cases h
        · unfold everyWorkspaceHasOwner at hinv ⊢
          rw [List.all_eq_true] at hinv ⊢
          intro w hw
          rw [List.mem_append] at hw
          cases hw with
          | inl hin =>
            rw [List.any_append]
            have hold := hinv w hin
            simp only [hold, Bool.true_or]
          | inr hnew =>
            rw [List.mem_singleton] at hnew
            subst hnew
            rw [List.any_append]
            simp

/-- C2 witness: creating workspace W by user 7 on the empty database with
no fault injected preserves the owner invariant. -/
theorem createWorkspace_atomic_owner_membership_witness :
    (memberIdsBelowNext emptyState = true ∧ everyWorkspaceHasOwner emptyState = true) ∧
    everyWorkspaceHasOwner (createWorkspace emptyState "W" none 7 false false).1 = true :=
  ⟨⟨by decide, by decide⟩,
    (createWorkspace_atomic_owner_membership emptyState "W" none 7 false false
        (by decide) (by decide)).2.2⟩

/-- C4 counterexample: the claim quantifies over every sequence of store
operations, but after revoking hash h1 a createUserDevice that stores h1
again (which the schema permits: refresh_token_hash carries no UNIQUE
constraint) makes validateRefreshToken(h1) succeed once more. -/
theorem revoked_hash_validates_after_reusing_create :
    validateRefreshToken
      (applyOps oneDeviceState [.revoke "h1", .create 1 "h1"]) "h1" ≠ none := by
  decide

/-- C4 as amended: after revokeUserDevice(h) every subsequent
validateRefreshToken(h) returns none under any interleaving of store
operations, provided no intervening create or rotate stores the hash h
again; moreover no store operation ever clears isRevoked: a revoked row
keeps a revoked row with its id after every operation. -/
theorem revoke_then_validate_none
    (s : DBState) (hash : String) (ops : List StoreOp)
    (hops : ∀ op ∈ ops, opAvoidsHash op hash) :
    validateRefreshToken (applyOps (revokeUserDevice s hash).1 ops) hash = none ∧
    (∀ (s0 : DBState) (op : StoreOp), ∀ d ∈ s0.userDevices, d.isRevoked = true →
      ∃ d1 ∈ (applyOp s0 op).userDevices, d1.id = d.id ∧ d1.isRevoked = true) :=
  ⟨validate_none_of_noActiveHash _ _
    (noActiveHash_applyOps _ _ _ hops (noActiveHash_revoke s hash)),
   fun s0 op d hd hr => revoked_stays_revoked s0 op d hd hr⟩

/-- C4 witness: after revoking h1, a run of create, rotate, revoke-all and
validate operations that never stores h1 leaves validateRefreshToken(h1)
at none. -/
theorem revoke_then_validate_none_witness :
    (∀ op ∈ ([.create 1 "h2", .rotate 1 "h3", .revokeAll 1 none,
        .validate "h1"] : List StoreOp), opAvoidsHash op "h1") ∧
    validateRefreshToken
      (applyOps (revokeUserDevice oneDeviceState "h1").1
        [.create 1 "h2", .rotate 1 "h3", .revokeAll 1 none, .validate "h1"]) "h1" = none :=
  ⟨by decide, (revoke_then_validate_none oneDeviceState "h1"
    [.create 1 "h2", .rotate 1 "h3", .revokeAll 1 none, .validate "h1"] (by decide)).1⟩

/-- C5 counterexample: the schema allows two sessions to store the same
refresh-token hash (and the same user logging in twice within a second
even obtains the identical token, hence hash). Rotating session 1 away from
h1 does not stop validateRefreshToken(h1) from resolving through session 2,
so the previous hash resolves again after the rotation. -/
theorem rotated_old_hash_still_validates_when_shared :
    validateRefreshToken (updateDeviceRefreshToken sharedHashState 1 "h2") "h1" ≠ none := by
  decide

/-- C5 as amended: after updateDeviceRefreshToken(sessionId, newHash), the
old hash never again resolves via validateRefreshToken — under any further
interleaving of store operations — provided the rotated session was the
only un-revoked row storing the old hash, the new hash differs from it, and
no subsequent create or rotate stores the old hash again. -/
theorem rotate_then_old_hash_never_validates
    (s : DBState) (deviceId : Nat) (oldHash newHash : String) (ops : List StoreOp)
    (honly : ∀ d ∈ s.userDevices,
      d.refreshTokenHash = oldHash → d.isRevoked = false → d.id = deviceId)
    (hnew : newHash ≠ oldHash)
    (hops : ∀ op ∈ ops, opAvoidsHash op oldHash) :
    validateRefreshToken
      (applyOps (updateDeviceRefreshToken s deviceId newHash) ops) oldHash = none :=
  validate_none_of_noActiveHash _ _
    (noActiveHash_applyOps _ _ _ hops
      (noActiveHash_rotate s deviceId oldHash newHash honly hnew))

/-- C5 witness: with a single session holding h1, rotating it to h2 and
then running further operations that never store h1 leaves
validateRefreshToken(h1) at none. -/
theorem rotate_then_old_hash_never_validates_witness :
    ((∀ d ∈ oneDeviceState.userDevices,
        d.refreshTokenHash = "h1" → d.isRevoked = false → d.id = 1) ∧
      "h2" ≠ "h1" ∧
      (∀ op ∈ ([.create 1 "h3", .revoke "h2"] : List StoreOp), opAvoidsHash op "h1")) ∧
    validateRefreshToken
      (applyOps (updateDeviceRefreshToken oneDeviceState 1 "h2")
        [.create 1 "h3", .revoke "h2"]) "h1" = none :=
  ⟨⟨by decide, by decide, by decide⟩,
    rotate_then_old_hash_never_validates oneDeviceState 1 "h1" "h2"
      [.create 1 "h3", .revoke "h2"] (by decide) (by decide) (by decide)⟩

/-- C3 counterexample: user 2 holds workspace role MEMBER and has no
ProjectMembership row for project 1, and hasProjectAccess(1, 2, VIEWER)
does return true — but hasProjectAccess issues only SELECT statements
(its embedding maps no state), so immediately after the check the
project_members table is exactly as before and still holds no explicit
VIEWER row for (1, 2): the second half of the claim fails. -/
theorem hasProjectAccess_check_does_not_materialize_row :
    hasProjectAccess memberNoRowState 1 2 "VIEWER" = true ∧
    queryProjectMemberRole memberNoRowState 1 2 = none := by
  decide

/-- C3 as amended: for a workspace MEMBER with no ProjectMembership row for
a project of that workspace, hasProjectAccess(p, u, VIEWER) returns true
via the workspace fallback, and the explicit VIEWER row is materialized by
the read path — after getProject(p, u) runs, the row exists. -/
theorem member_fallback_access_and_read_path_materializes
    (s : DBState) (projectId userId : Nat) (project : ProjectRow)
    (hproj : getProjectById s projectId = some project)
    (hws : (s.workspaces.find? (fun w => w.id == project.workspaceId)).isSome = true)
    (hwm : queryWorkspaceMemberRole s project.workspaceId userId = some "MEMBER")
    (hpm : queryProjectMemberRole s projectId userId = none) :
    hasProjectAccess s projectId userId "VIEWER" = true ∧
    queryProjectMemberRole (getProject s projectId userId).1 projectId userId =
      some "VIEWER" := by
  have hfind : s.projectMembers.find?
      (fun r => r.projectId == projectId && r.userId == userId) = none := by
    have := hpm
    unfold queryProjectMemberRole at this
    exact Option.map_eq_none.mp this
  constructor
  · simp [hasProjectAccess, hpm, hproj, hasWorkspaceAccess, hwm, jsGe,
      workspaceRoleHierarchy]
  · have hwsne : (s.workspaces.find? (fun w => w.id == project.workspaceId)).isNone = false := by
      simp only [Option.isNone_eq_false_iff]
      exact hws
    simp only [getProject, hproj, hwsne, Bool.false_eq_true, if_false, hwm, hpm,
      Option.isSome_some, Option.isNone_none, Bool.and_self, if_true,
      insertProjectMemberIfAbsent, hfind, Option.isSome_none, Bool.false_eq_true]
    simp only [queryProjectMemberRole, find?_append_of_none _ _ _ hfind]
    simp [List.find?_cons]

/-- C3 witness: the amended statement holds on the concrete state of the
counterexample. -/
theorem member_fallback_access_witness :
    (getProjectById memberNoRowState 1 =
        some { id := 1, workspaceId := 1, createdBy := 9 } ∧
      queryWorkspaceMemberRole memberNoRowState 1 2 = some "MEMBER" ∧
      queryProjectMemberRole memberNoRowState 1 2 = none) ∧
    (hasProjectAccess memberNoRowState 1 2 "VIEWER" = true ∧
      queryProjectMemberRole (getProject memberNoRowState 1 2).1 1 2 = some "VIEWER") :=
  ⟨⟨by decide, by decide, by decide⟩,
    member_fallback_access_and_read_path_materializes memberNoRowState 1 2
      { id := 1, workspaceId := 1, createdBy := 9 }
      (by decide) (by decide) (by decide) (by decide)⟩

/-- C7: a requester who is a PROJECT_LEAD of an existing project, targets
themselves, and is the only PROJECT_LEAD (countProjectLeads excluding the
requester returns 0) is rejected by updateProjectMemberRole with the
UserInputError raised before the UPDATE statement, so the state — in
particular the project_members table — is returned unchanged. -/
theorem updateProjectMemberRole_sole_lead_self_rejected
    (s : DBState) (projectId requesterId : Nat) (role : String) (project : ProjectRow)
    (hproj : getProjectById s projectId = some project)
    (hlead : queryProjectMemberRole s projectId requesterId = some "PROJECT_LEAD")
    (hcount : countProjectLeads s projectId (some requesterId) = 0) :
    updateProjectMemberRole s projectId requesterId role requesterId =
      (s, .error (.userInput "Cannot change your own role as the only project lead")) := by
  simp [updateProjectMemberRole, hproj, hlead, hcount]

/-- C7 witness: in a project whose only PROJECT_LEAD is user 5 (with a
CONTRIBUTOR 6), user 5 demoting themselves to CONTRIBUTOR fails with the
UserInputError and the membership table is unchanged. -/
theorem updateProjectMemberRole_sole_lead_witness :
    (getProjectById soleLeadState 1 = some { id := 1, workspaceId := 1, createdBy := 5 } ∧
      queryProjectMemberRole soleLeadState 1 5 = some "PROJECT_LEAD" ∧
      countProjectLeads soleLeadState 1 (some 5) = 0) ∧
    updateProjectMemberRole soleLeadState 1 5 "CONTRIBUTOR" 5 =
      (soleLeadState, .error (.userInput "Cannot change your own role as the only project lead")) :=
  ⟨⟨by decide, by decide, by decide⟩,
    updateProjectMemberRole_sole_lead_self_rejected soleLeadState 1 5 "CONTRIBUTOR"
      { id := 1, workspaceId := 1, createdBy := 5 } (by decide) (by decide) (by decide)⟩

/-- C8: when updateTask replaces the assignee set of a task from the two
users x and y by the two users y and z (and touches some scalar field so
the update is accepted), the run succeeds and exactly one task-assignment
notification is created, addressed to z — y, already assigned before the
transaction, gets none, and the removed x gets none. The pre-replace read
happens through wasUserPreviouslyAssigned on the pool connection, so it
sees the assignment rows committed before the transaction began. -/
theorem updateTask_notifies_only_net_new_assignee
    (s : DBState) (tid reqId x y z : Nat) (t : TaskRow) (newTitle : String)
    (ht : getTaskById s tid = some t)
    (hlead : queryProjectMemberRole s t.projectId reqId = some "PROJECT_LEAD")
    (hold : s.taskAssignments.filter (fun a => a.taskId == tid) =
      [{ taskId := tid, userId := x }, { taskId := tid, userId := y }])
    (hxz : x ≠ z) (hyz : y ≠ z) :
    ((updateTask s
        { taskId := tid, title := some newTitle, description := none, status := none,
          dueDate := none, assignedToIds := some [y, z] } reqId).1.notifications =
      s.notifications ++ [taskAssignmentNotification z tid newTitle]) ∧
    (updateTask s
        { taskId := tid, title := some newTitle, description := none, status := none,
          dueDate := none, assignedToIds := some [y, z] } reqId).2 =
      .ok { t with title := newTitle } := by
  have hauxy := any_of_filter (fun a : TaskAssignmentRow => a.taskId == tid)
    (fun a => a.userId == y) s.taskAssignments
  rw [hold] at hauxy
  have hwy : wasUserPreviouslyAssigned s tid y = true := by
    unfold wasUserPreviouslyAssigned
    rw [← hauxy]
    simp
  have hauxz := any_of_filter (fun a : TaskAssignmentRow => a.taskId == tid)
    (fun a => a.userId == z) s.taskAssignments
  rw [hold] at hauxz
  have hwz : wasUserPreviouslyAssigned s tid z = false := by
    unfold wasUserPreviouslyAssigned
    rw [← hauxz]
    simp [beq_eq_false_iff_ne.mpr hxz, beq_eq_false_iff_ne.mpr hyz]
  have hcan : canUpdateTask s tid reqId = true := by
    unfold canUpdateTask
    rw [ht]
    dsimp only
    rw [hlead]
    rfl
  unfold updateTask
  rw [ht]
  dsimp only
  rw [hcan]
  simp only [Bool.not_true, Bool.false_eq_true, if_false, Option.isNone_none,
    Option.isNone_some, Bool.false_and, Bool.and_false, Bool.and_true, List.foldl,
    hwy, hwz, Bool.not_false, if_true, applyTaskFieldUpdates]
  exact ⟨trivial, trivial⟩

/-- C8 witness: task 10 assigned to users 2 and 3 is updated by lead 5 to
assignees 3 and 4 with a new title; exactly one notification is created and
it is addressed to user 4. -/
theorem updateTask_notifies_only_net_new_assignee_witness :
    (getTaskById taskDiffState 10 =
        some { id := 10, projectId := 1, title := "t", status := "TODO", createdBy := 5 } ∧
      queryProjectMemberRole taskDiffState 1 5 = some "PROJECT_LEAD" ∧
      taskDiffState.taskAssignments.filter (fun a => a.taskId == 10) =
        [{ taskId := 10, userId := 2 }, { taskId := 10, userId := 3 }]) ∧
    ((updateTask taskDiffState
        { taskId := 10, title := some "t2", description := none, status := none,
          dueDate := none, assignedToIds := some [3, 4] } 5).1.notifications =
      taskDiffState.notifications ++ [taskAssignmentNotification 4 10 "t2"]) :=
  ⟨⟨by decide, by decide, by decide⟩,
    (updateTask_notifies_only_net_new_assignee taskDiffState 10 5 2 3 4
        { id := 10, projectId := 1, title := "t", status := "TODO", createdBy := 5 } "t2"
        (by decide) (by decide) (by decide) (by decide) (by decide)).1⟩

end CollabPlatform
